import Mathlib

/-!
Verification development for the OrbX protocol-mimicry tester
(`orbx_protocol_tester.py`).  The network is modelled as an environment
`Env` supplying, per profile, the HTTP responses (or their absence, a raised
transport exception) observed by each probe request; every probe operation,
the per-profile battery `test_protocol`, the runner `runAllTests`, the
scoring reductions and the report document are shallow embeddings of the
corresponding Python functions.
-/

/-- One completed HTTP exchange as observed by the tester: the status code,
the byte length of the response body (`len(response.content)`), and the
string rendering of the response headers (`str(response.headers)`). -/
structure HttpResp where
  status : Nat
  contentLen : Nat
  headersText : String
deriving DecidableEq

/-- The network environment for one profile's battery: the response (with
measured round-trip milliseconds where the code measures one) of each request
the battery can issue.  `none` models a raised transport exception
(timeout, refused connection, TLS failure). -/
structure Env where
  connResp : Option (HttpResp × ℚ)
  transResp : Option HttpResp
  headResp : Option HttpResp
  varResp : Fin 5 → Option (HttpResp × ℚ)

/-- Mirrors `protocol.status_code in [200, 201, 204]`. -/
def successStatus (st : Nat) : Bool :=
  st == 200 || st == 201 || st == 204

/-- Configuration of one mimicry protocol (`ProtocolConfig` dataclass). -/
structure ProtocolConfig where
  name : String
  endpoint : String
  user_agent : String
  expected_headers : List String
  regions : List String
  description : String
deriving DecidableEq

/-- Result record for one protocol (`ProtocolTestResult` dataclass). -/
structure ProtocolTestResult where
  protocol_name : String
  endpoint : String
  http_status : Nat
  response_time_ms : ℚ
  can_connect : Bool
  can_send_data : Bool
  can_receive_data : Bool
  headers_authentic : Bool
  packet_size_variation : Bool
  timing_variation : Bool
  error_message : Option String
  test_timestamp : String
deriving DecidableEq

/-- `OrbXProtocolTester.test_basic_connectivity`: a GET request; on an
exception returns `(False, 0, 0.0)`, otherwise success iff the status code
is in `{200, 201, 204}`, together with the literal status code and the
measured round-trip time. -/
def test_basic_connectivity (env : Env) (_protocol : ProtocolConfig) :
    Bool × Nat × ℚ :=
  match env.connResp with
  | some (resp, rtt) => (successStatus resp.status, resp.status, rtt)
  | none => (false, 0, 0)

/-- `OrbXProtocolTester.test_data_transmission`: a POST request; on an
exception returns `(False, False)`, otherwise `can_send` iff success status
and `can_receive` iff the response body is non-empty. -/
def test_data_transmission (env : Env) (_protocol : ProtocolConfig) :
    Bool × Bool :=
  match env.transResp with
  | some resp => (successStatus resp.status, decide (0 < resp.contentLen))
  | none => (false, false)

/-- `token in text` on Python strings: the token occurs as a contiguous
substring of the text. -/
def containsToken (text token : String) : Bool :=
  decide (token.toList <:+: text.toList)

/-- `OrbXProtocolTester.test_header_authenticity`: a HEAD request; on an
exception returns `False`; otherwise `True` if some expected header token
occurs (case-insensitively) in the rendered response headers, else falls
back to the success-status check. -/
def test_header_authenticity (env : Env) (protocol : ProtocolConfig) : Bool :=
  match env.headResp with
  | some resp =>
    if protocol.expected_headers.any
        (fun expected => containsToken resp.headersText.toLower expected.toLower) then
      true
    else
      successStatus resp.status
  | none => false

/-- The five variation-probe responses, in repetition order. -/
def varResponses (env : Env) : List (Option (HttpResp × ℚ)) :=
  (List.finRange 5).map env.varResp

/-- The response byte lengths collected by the variation loop
(`packet_sizes`), in repetition order. -/
def observedSizes (env : Env) : List Nat :=
  (varResponses env).filterMap (fun o => o.map (fun pr => pr.1.contentLen))

/-- The measured round-trip times collected by the variation loop
(`response_times`), in repetition order, in milliseconds. -/
def observedTimes (env : Env) : List ℚ :=
  (varResponses env).filterMap (fun o => o.map (fun pr => pr.2))

/-- `len(set(xs))`: the number of distinct values of a sequence. -/
def distinctCount {α : Type} [DecidableEq α] (l : List α) : Nat :=
  l.dedup.length

/-- `OrbXProtocolTester.test_traffic_variation`: five POST requests with
growing payloads; if any raises, returns `(False, False)`; otherwise
`size_variation` iff more than 2 distinct response lengths and
`timing_variation` iff more than 2 distinct raw round-trip times. -/
def test_traffic_variation (env : Env) (_protocol : ProtocolConfig) :
    Bool × Bool :=
  if (varResponses env).all Option.isSome then
    (decide (2 < distinctCount (observedSizes env)),
     decide (2 < distinctCount (observedTimes env)))
  else
    (false, false)

/-- The freshly instantiated result record at the start of a profile's
battery: every flag false, numeric fields zero, no error message. -/
def initResult (protocol : ProtocolConfig) (ts : String) : ProtocolTestResult :=
  { protocol_name := protocol.name
    endpoint := protocol.endpoint
    http_status := 0
    response_time_ms := 0
    can_connect := false
    can_send_data := false
    can_receive_data := false
    headers_authentic := false
    packet_size_variation := false
    timing_variation := false
    error_message := none
    test_timestamp := ts }

/-- Test 1 of `test_protocol`: writes `can_connect`, `http_status` and
`response_time_ms` from the connectivity probe. -/
def connectivityPhase (env : Env) (protocol : ProtocolConfig)
    (r : ProtocolTestResult) : ProtocolTestResult :=
  { r with
    can_connect := (test_basic_connectivity env protocol).1
    http_status := (test_basic_connectivity env protocol).2.1
    response_time_ms := (test_basic_connectivity env protocol).2.2 }

/-- Test 2 of `test_protocol`: writes `can_send_data` and
`can_receive_data` from the transmission probe. -/
def transmissionPhase (env : Env) (protocol : ProtocolConfig)
    (r : ProtocolTestResult) : ProtocolTestResult :=
  { r with
    can_send_data := (test_data_transmission env protocol).1
    can_receive_data := (test_data_transmission env protocol).2 }

/-- Test 3 of `test_protocol`: writes `headers_authentic` from the
header-authenticity probe. -/
def headerPhase (env : Env) (protocol : ProtocolConfig)
    (r : ProtocolTestResult) : ProtocolTestResult :=
  { r with headers_authentic := test_header_authenticity env protocol }

/-- Test 4 of `test_protocol`: writes `packet_size_variation` and
`timing_variation` from the variation probe. -/
def variationPhase (env : Env) (protocol : ProtocolConfig)
    (r : ProtocolTestResult) : ProtocolTestResult :=
  { r with
    packet_size_variation := (test_traffic_variation env protocol).1
    timing_variation := (test_traffic_variation env protocol).2 }

/-- The literal error message `f"Connection failed with HTTP {status_code}"`. -/
def connectionFailedMessage (st : Nat) : String :=
  "Connection failed with HTTP " ++ toString st

/-- `OrbXProtocolTester.test_protocol`: runs the battery for one protocol.
If connectivity fails the result is finalized with an error message and the
remaining probes are skipped; otherwise transmission, header and variation
probes run unconditionally. -/
def test_protocol (env : Env) (protocol : ProtocolConfig) (ts : String) :
    ProtocolTestResult :=
  if (test_basic_connectivity env protocol).1 then
    variationPhase env protocol (headerPhase env protocol
      (transmissionPhase env protocol (connectivityPhase env protocol (initResult protocol ts))))
  else
    { connectivityPhase env protocol (initResult protocol ts) with
      error_message :=
        some (connectionFailedMessage (test_basic_connectivity env protocol).2.1) }

/-- The four probe kinds of a battery. -/
inductive ProbeKind where
  | connectivity
  | transmission
  | headerAuthenticity
  | variation
deriving DecidableEq

/-- The probes `test_protocol` actually executes for a profile, in order:
the battery short-circuits after an unreachable connectivity probe. -/
def executedProbes (env : Env) (protocol : ProtocolConfig) : List ProbeKind :=
  if (test_basic_connectivity env protocol).1 then
    [ProbeKind.connectivity, ProbeKind.transmission,
     ProbeKind.headerAuthenticity, ProbeKind.variation]
  else
    [ProbeKind.connectivity]

/-- The loop body of `run_all_tests`, carrying the position of the next
profile; `envs i` and `tss i` are the network environment and timestamp of
the battery of the profile at position `i`. -/
def runTestsFrom (envs : Nat → Env) (tss : Nat → String) :
    Nat → List ProtocolConfig → List ProtocolTestResult
  | _, [] => []
  | i, protocol :: rest =>
    test_protocol (envs i) protocol (tss i) :: runTestsFrom envs tss (i + 1) rest

/-- `OrbXProtocolTester.run_all_tests`: one battery per catalog profile, in
catalog order, each result appended to the run's result list. -/
def runAllTests (envs : Nat → Env) (tss : Nat → String)
    (catalog : List ProtocolConfig) : List ProtocolTestResult :=
  runTestsFrom envs tss 0 catalog

/-- The six flags summed by the mimicry score, in source order. -/
def flagList (r : ProtocolTestResult) : List Bool :=
  [r.can_connect, r.can_send_data, r.can_receive_data,
   r.headers_authentic, r.packet_size_variation, r.timing_variation]

/-- `mimicry_score` from `print_summary`: the sum of the six boolean flags. -/
def mimicryScore (r : ProtocolTestResult) : Nat :=
  (flagList r).count true

/-- The four flags summed by the quality-band classification, in source
order. -/
def qualityFlags (r : ProtocolTestResult) : List Bool :=
  [r.can_connect, r.can_send_data, r.headers_authentic, r.packet_size_variation]

/-- The four-flag sum used by the quality-band classification in
`print_summary`. -/
def qualityCount (r : ProtocolTestResult) : Nat :=
  (qualityFlags r).count true

/-- A result counted as "excellent" by `print_summary`. -/
def excellentP (r : ProtocolTestResult) : Prop :=
  4 ≤ qualityCount r

/-- A result counted as "good" by `print_summary`. -/
def goodP (r : ProtocolTestResult) : Prop :=
  2 ≤ qualityCount r ∧ qualityCount r < 4

/-- A result counted as "poor" by `print_summary`. -/
def poorP (r : ProtocolTestResult) : Prop :=
  qualityCount r < 2

/-- `working_protocols`: the count of results whose connectivity and send
flags are both true (`print_summary` and `save_report`). -/
def workingProtocols (results : List ProtocolTestResult) : Nat :=
  results.countP (fun r => r.can_connect && r.can_send_data)

/-- The `test_metadata` object of the report document. -/
structure TestMetadata where
  server : String
  timestamp : String
  total_protocols : Nat
  working_protocols : Nat
deriving DecidableEq

/-- The report document built by `save_report`. -/
structure Report where
  test_metadata : TestMetadata
  results : List ProtocolTestResult
deriving DecidableEq

/-- Builds the report dictionary of `save_report` from the run's results. -/
def mkReport (server ts : String) (results : List ProtocolTestResult) : Report :=
  { test_metadata :=
      { server := server
        timestamp := ts
        total_protocols := results.length
        working_protocols := workingProtocols results }
    results := results }

/-- The catalog of the nine mimicry protocols declared in
`OrbXProtocolTester.__init__`, in declaration order. -/
def protocols : List ProtocolConfig :=
  [ { name := "Microsoft Teams"
      endpoint := "/teams/messages"
      user_agent := "Mozilla/5.0 Teams/1.5.00.32283"
      expected_headers := ["teams", "microsoft", "skype"]
      regions := ["*"]
      description := "Disguises traffic as Microsoft Teams chat" },
    { name := "Shaparak Banking"
      endpoint := "/shaparak/transaction"
      user_agent := "ShaparakClient/2.0"
      expected_headers := ["shaparak", "bank"]
      regions := ["IR"]
      description := "Looks like Iranian banking transactions" },
    { name := "DNS over HTTPS"
      endpoint := "/dns-query"
      user_agent := "Mozilla/5.0"
      expected_headers := ["dns", "application/dns-message"]
      regions := ["*"]
      description := "Appears as DNS queries" },
    { name := "Google Workspace"
      endpoint := "/google/"
      user_agent := "Mozilla/5.0 Chrome/120.0.0.0"
      expected_headers := ["google", "gws", "drive"]
      regions := ["*"]
      description := "Mimics Google Drive, Meet, Calendar" },
    { name := "Zoom"
      endpoint := "/zoom/"
      user_agent := "Mozilla/5.0 Zoom/5.16.0"
      expected_headers := ["zoom"]
      regions := ["*"]
      description := "Looks like Zoom video calls" },
    { name := "FaceTime"
      endpoint := "/facetime/"
      user_agent := "FaceTime/1.0 CFNetwork/1404.0.5"
      expected_headers := ["facetime", "apple"]
      regions := ["*"]
      description := "Appears as Apple FaceTime" },
    { name := "VK"
      endpoint := "/vk/"
      user_agent := "VKAndroidApp/7.26"
      expected_headers := ["vk", "vkontakte"]
      regions := ["RU", "BY", "KZ", "UA"]
      description := "Russian VK social network" },
    { name := "Yandex"
      endpoint := "/yandex/"
      user_agent := "Mozilla/5.0 YaBrowser/23.11.0"
      expected_headers := ["yandex"]
      regions := ["RU", "BY", "KZ"]
      description := "Russian Yandex services" },
    { name := "WeChat"
      endpoint := "/wechat/"
      user_agent := "MicroMessenger/8.0.37"
      expected_headers := ["wechat", "tencent"]
      regions := ["CN", "HK", "TW"]
      description := "Chinese WeChat messaging" } ]

/-- A sample result with a mixed flag pattern, used to instantiate
universally quantified theorems. -/
def resultMixed : ProtocolTestResult :=
  { protocol_name := "Sample"
    endpoint := "/sample"
    http_status := 200
    response_time_ms := 3
    can_connect := true
    can_send_data := false
    can_receive_data := true
    headers_authentic := false
    packet_size_variation := true
    timing_variation := false
    error_message := none
    test_timestamp := "2025-01-01T00:00:00" }

lemma test_protocol_protocol_name (env : Env) (protocol : ProtocolConfig) (ts : String) :
    (test_protocol env protocol ts).protocol_name = protocol.name := by
  unfold test_protocol
  split <;> rfl

lemma test_protocol_endpoint (env : Env) (protocol : ProtocolConfig) (ts : String) :
    (test_protocol env protocol ts).endpoint = protocol.endpoint := by
  unfold test_protocol
  split <;> rfl

lemma test_protocol_timestamp (env : Env) (protocol : ProtocolConfig) (ts : String) :
    (test_protocol env protocol ts).test_timestamp = ts := by
  unfold test_protocol
  split <;> rfl

lemma test_protocol_can_connect (env : Env) (protocol : ProtocolConfig) (ts : String) :
    (test_protocol env protocol ts).can_connect = (test_basic_connectivity env protocol).1 := by
  unfold test_protocol
  split <;> rfl

lemma runTestsFrom_length (envs : Nat → Env) (tss : Nat → String) :
    ∀ (i : Nat) (catalog : List ProtocolConfig),
      (runTestsFrom envs tss i catalog).length = catalog.length := by
  intro i catalog
  induction catalog generalizing i with
  | nil => rfl
  | cons p rest ih => simp [runTestsFrom, ih]

lemma runTestsFrom_names (envs : Nat → Env) (tss : Nat → String) :
    ∀ (i : Nat) (catalog : List ProtocolConfig),
      (runTestsFrom envs tss i catalog).map (fun r => r.protocol_name) =
        catalog.map (fun p => p.name) := by
  intro i catalog
  induction catalog generalizing i with
  | nil => rfl
  | cons p rest ih => simp [runTestsFrom, ih, test_protocol_protocol_name]

lemma runTestsFrom_getElem (envs : Nat → Env) (tss : Nat → String) :
    ∀ (i : Nat) (catalog : List ProtocolConfig) (j : Nat),
      (runTestsFrom envs tss i catalog)[j]? =
        (catalog[j]?).map (fun p => test_protocol (envs (i + j)) p (tss (i + j))) := by
  intro i catalog
  induction catalog generalizing i with
  | nil => intro j; simp [runTestsFrom]
  | cons p rest ih =>
    intro j
    cases j with
    | zero => simp [runTestsFrom]
    | succ j =>
      have h := ih (i + 1) j
      rw [show i + (j + 1) = i + 1 + j by omega]
      simpa [runTestsFrom] using h

/-- C7: a complete run produces exactly one `ProtocolTestResult` per catalog
profile, appended in catalog declaration order, whatever the probe outcomes:
the result list has the catalog's length, its names match the catalog's
names position by position, and the entry at each position is exactly the
battery result of the profile at that position. -/
theorem claim_C7_one_result_per_profile (envs : Nat → Env) (tss : Nat → String)
    (catalog : List ProtocolConfig) :
    (runAllTests envs tss catalog).length = catalog.length
    ∧ (runAllTests envs tss catalog).map (fun r => r.protocol_name) =
        catalog.map (fun p => p.name)
    ∧ ∀ j : Nat, (runAllTests envs tss catalog)[j]? =
        (catalog[j]?).map (fun p => test_protocol (envs j) p (tss j)) := by
  refine ⟨runTestsFrom_length envs tss 0 catalog, runTestsFrom_names envs tss 0 catalog, ?_⟩
  intro j
  simpa using runTestsFrom_getElem envs tss 0 catalog j

/-- C2: the mimicry score counts the true values among the six flags, hence
lies in the range 0 to 6, and, being a count over the multiset of flags, it
is invariant under any permutation of the flag sequence (so it cannot
depend on the order in which the probes were executed). -/
theorem claim_C2_mimicry_score_counts_flags (r : ProtocolTestResult) (l : List Bool)
    (hperm : l.Perm (flagList r)) :
    mimicryScore r = (flagList r).count true
    ∧ mimicryScore r ≤ 6
    ∧ l.count true = mimicryScore r := by
  refine ⟨rfl, ?_, hperm.count_eq true⟩
  exact le_trans (List.count_le_length true (flagList r)) (le_of_eq rfl)

/-- Witness for C2 at a concrete result and a concrete permutation of its
flag sequence. -/
theorem claim_C2_witness :
    ([false, false, false, true, true, true].Perm (flagList resultMixed))
    ∧ (mimicryScore resultMixed = (flagList resultMixed).count true
       ∧ mimicryScore resultMixed ≤ 6
       ∧ [false, false, false, true, true, true].count true = mimicryScore resultMixed) :=
  ⟨by decide, claim_C2_mimicry_score_counts_flags resultMixed _ (by decide)⟩

/-- C4: the quality band is computed from the four-flag subset only; its sum
is at most 4, a sum of 4 or more is counted "excellent", a sum of 2 or 3 is
counted "good", a sum below 2 is counted "poor", each result falls in
exactly one band, and the four-flag sum can differ from the six-flag
mimicry score. -/
theorem claim_C4_quality_band_partition :
    (∀ r : ProtocolTestResult,
      qualityCount r ≤ 4
      ∧ (excellentP r ↔ 4 ≤ qualityCount r)
      ∧ (goodP r ↔ (qualityCount r = 2 ∨ qualityCount r = 3))
      ∧ (poorP r ↔ qualityCount r < 2)
      ∧ ((excellentP r ∧ ¬ goodP r ∧ ¬ poorP r)
         ∨ (¬ excellentP r ∧ goodP r ∧ ¬ poorP r)
         ∨ (¬ excellentP r ∧ ¬ goodP r ∧ poorP r)))
    ∧ (∃ r : ProtocolTestResult, qualityCount r ≠ mimicryScore r) := by
  constructor
  · intro r
    have hb : qualityCount r ≤ 4 :=
      le_trans (List.count_le_length true (qualityFlags r)) (le_of_eq rfl)
    refine ⟨hb, Iff.rfl, ?_, Iff.rfl, ?_⟩
    · unfold goodP
      omega
    · unfold excellentP goodP poorP
      omega
  · exact ⟨resultMixed, by decide⟩

/-- C10: the transmission, header and variation phases each modify only
their own flag fields, leaving `http_status`, `response_time_ms`,
`protocol_name`, `endpoint`, `test_timestamp` and every other field
untouched; the `http_status` and `response_time_ms` of the finished result
are exactly the values written by the connectivity phase. -/
theorem claim_C10_phase_frame (env : Env) (protocol : ProtocolConfig)
    (ts : String) (r : ProtocolTestResult) :
    ((transmissionPhase env protocol r).http_status = r.http_status
     ∧ (transmissionPhase env protocol r).response_time_ms = r.response_time_ms
     ∧ (transmissionPhase env protocol r).protocol_name = r.protocol_name
     ∧ (transmissionPhase env protocol r).endpoint = r.endpoint
     ∧ (transmissionPhase env protocol r).test_timestamp = r.test_timestamp
     ∧ (transmissionPhase env protocol r).can_connect = r.can_connect
     ∧ (transmissionPhase env protocol r).headers_authentic = r.headers_authentic
     ∧ (transmissionPhase env protocol r).packet_size_variation = r.packet_size_variation
     ∧ (transmissionPhase env protocol r).timing_variation = r.timing_variation
     ∧ (transmissionPhase env protocol r).error_message = r.error_message)
    ∧ ((headerPhase env protocol r).http_status = r.http_status
       ∧ (headerPhase env protocol r).response_time_ms = r.response_time_ms
       ∧ (headerPhase env protocol r).protocol_name = r.protocol_name
       ∧ (headerPhase env protocol r).endpoint = r.endpoint
       ∧ (headerPhase env protocol r).test_timestamp = r.test_timestamp
       ∧ (headerPhase env protocol r).can_connect = r.can_connect
       ∧ (headerPhase env protocol r).can_send_data = r.can_send_data
       ∧ (headerPhase env protocol r).can_receive_data = r.can_receive_data
       ∧ (headerPhase env protocol r).packet_size_variation = r.packet_size_variation
       ∧ (headerPhase env protocol r).timing_variation = r.timing_variation
       ∧ (headerPhase env protocol r).error_message = r.error_message)
    ∧ ((variationPhase env protocol r).http_status = r.http_status
       ∧ (variationPhase env protocol r).response_time_ms = r.response_time_ms
       ∧ (variationPhase env protocol r).protocol_name = r.protocol_name
       ∧ (variationPhase env protocol r).endpoint = r.endpoint
       ∧ (variationPhase env protocol r).test_timestamp = r.test_timestamp
       ∧ (variationPhase env protocol r).can_connect = r.can_connect
       ∧ (variationPhase env protocol r).can_send_data = r.can_send_data
       ∧ (variationPhase env protocol r).can_receive_data = r.can_receive_data
       ∧ (variationPhase env protocol r).headers_authentic = r.headers_authentic
       ∧ (variationPhase env protocol r).error_message = r.error_message)
    ∧ (test_protocol env protocol ts).http_status =
        (test_basic_connectivity env protocol).2.1
    ∧ (test_protocol env protocol ts).response_time_ms =
        (test_basic_connectivity env protocol).2.2 := by
  refine ⟨⟨rfl, rfl, rfl, rfl, rfl, rfl, rfl, rfl, rfl, rfl⟩,
    ⟨rfl, rfl, rfl, rfl, rfl, rfl, rfl, rfl, rfl, rfl, rfl⟩,
    ⟨rfl, rfl, rfl, rfl, rfl, rfl, rfl, rfl, rfl, rfl⟩, ?_, ?_⟩
  · unfold test_protocol
    split <;> rfl
  · unfold test_protocol
    split <;> rfl

/-- A sample profile used to instantiate universally quantified theorems. -/
def profSample : ProtocolConfig :=
  { name := "Sample"
    endpoint := "/sample"
    user_agent := "SampleAgent/1.0"
    expected_headers := ["sample"]
    regions := ["*"]
    description := "sample profile" }

/-- A successful plain response: status 200, a 10-byte body, empty header
rendering. -/
def respOk : HttpResp :=
  { status := 200, contentLen := 10, headersText := "" }

lemma test_basic_connectivity_congr (env env' : Env) (protocol : ProtocolConfig)
    (h : env'.connResp = env.connResp) :
    test_basic_connectivity env' protocol = test_basic_connectivity env protocol := by
  unfold test_basic_connectivity
  rw [h]

lemma connectionFailedMessage_ne_empty (st : Nat) : connectionFailedMessage st ≠ "" := by
  intro h
  have hlen := congrArg String.length h
  rw [connectionFailedMessage, String.length_append] at hlen
  have hc : ("Connection failed with HTTP ").length = 28 := rfl
  have he : ("" : String).length = 0 := rfl
  omega

/-- C1: when the connectivity probe reports unreachable, the finalized
result has all five downstream flags false, carries the error message
`Connection failed with HTTP <code>` (which contains the status code as a
substring), scores 0, the battery executes only the connectivity probe, and
the result is independent of every other component of the network
environment. -/
theorem claim_C1_short_circuit_on_unreachable (env : Env) (protocol : ProtocolConfig)
    (ts : String) (hunreach : (test_basic_connectivity env protocol).1 = false) :
    (test_protocol env protocol ts).can_send_data = false
    ∧ (test_protocol env protocol ts).can_receive_data = false
    ∧ (test_protocol env protocol ts).headers_authentic = false
    ∧ (test_protocol env protocol ts).packet_size_variation = false
    ∧ (test_protocol env protocol ts).timing_variation = false
    ∧ (test_protocol env protocol ts).error_message =
        some (connectionFailedMessage (test_basic_connectivity env protocol).2.1)
    ∧ (toString (test_basic_connectivity env protocol).2.1).toList <:+:
        (connectionFailedMessage (test_basic_connectivity env protocol).2.1).toList
    ∧ mimicryScore (test_protocol env protocol ts) = 0
    ∧ executedProbes env protocol = [ProbeKind.connectivity]
    ∧ (∀ env' : Env, env'.connResp = env.connResp →
        test_protocol env' protocol ts = test_protocol env protocol ts) := by
  have hbranch : test_protocol env protocol ts =
      { connectivityPhase env protocol (initResult protocol ts) with
        error_message :=
          some (connectionFailedMessage (test_basic_connectivity env protocol).2.1) } := by
    unfold test_protocol
    simp [hunreach]
  refine ⟨by simp [hbranch, connectivityPhase, initResult],
    by simp [hbranch, connectivityPhase, initResult],
    by simp [hbranch, connectivityPhase, initResult],
    by simp [hbranch, connectivityPhase, initResult],
    by simp [hbranch, connectivityPhase, initResult],
    by simp [hbranch, connectivityPhase, initResult], ?_, ?_, ?_, ?_⟩
  · exact ⟨"Connection failed with HTTP ".toList, [], by
      simp [connectionFailedMessage]⟩
  · rw [hbranch]
    simp [mimicryScore, flagList, connectivityPhase, initResult, hunreach]
  · unfold executedProbes
    simp [hunreach]
  · intro env' hc
    have hcc : test_basic_connectivity env' protocol = test_basic_connectivity env protocol :=
      test_basic_connectivity_congr env env' protocol hc
    have hbranch' : test_protocol env' protocol ts =
        { connectivityPhase env' protocol (initResult protocol ts) with
          error_message :=
            some (connectionFailedMessage (test_basic_connectivity env' protocol).2.1) } := by
      unfold test_protocol
      simp [hcc, hunreach]
    rw [hbranch', hbranch]
    unfold connectivityPhase
    rw [hcc]

/-- An environment whose connectivity probe receives HTTP 404 and whose
remaining requests would all raise. -/
def envDown : Env :=
  { connResp := some ({ status := 404, contentLen := 0, headersText := "" }, 7)
    transResp := none
    headResp := none
    varResp := fun _ => none }

/-- Witness for C1 at a concrete unreachable environment. -/
theorem claim_C1_witness :
    (test_basic_connectivity envDown profSample).1 = false
    ∧ ((test_protocol envDown profSample "t").can_send_data = false
    ∧ (test_protocol envDown profSample "t").can_receive_data = false
    ∧ (test_protocol envDown profSample "t").headers_authentic = false
    ∧ (test_protocol envDown profSample "t").packet_size_variation = false
    ∧ (test_protocol envDown profSample "t").timing_variation = false
    ∧ (test_protocol envDown profSample "t").error_message =
        some (connectionFailedMessage (test_basic_connectivity envDown profSample).2.1)
    ∧ (toString (test_basic_connectivity envDown profSample).2.1).toList <:+:
        (connectionFailedMessage (test_basic_connectivity envDown profSample).2.1).toList
    ∧ mimicryScore (test_protocol envDown profSample "t") = 0
    ∧ executedProbes envDown profSample = [ProbeKind.connectivity]
    ∧ (∀ env' : Env, env'.connResp = envDown.connResp →
        test_protocol env' profSample "t" = test_protocol envDown profSample "t")) :=
  ⟨by decide, claim_C1_short_circuit_on_unreachable envDown profSample "t" (by decide)⟩

/-- C5, amended: every probe operation fails closed — a raised transport
exception is absorbed inside the operation and converted into the negative
outcome — but the operations attach no cause string themselves, and after a
successful connectivity probe the finished record carries no error message
whatever the later probes did. -/
theorem claim_C5_amended_fails_closed (env : Env) (protocol : ProtocolConfig)
    (ts : String) :
    (env.connResp = none → test_basic_connectivity env protocol = (false, 0, 0))
    ∧ (env.transResp = none → test_data_transmission env protocol = (false, false))
    ∧ (env.headResp = none → test_header_authenticity env protocol = false)
    ∧ ((varResponses env).all Option.isSome = false →
        test_traffic_variation env protocol = (false, false))
    ∧ ((test_basic_connectivity env protocol).1 = true →
        (test_protocol env protocol ts).error_message = none) := by
  refine ⟨?_, ?_, ?_, ?_, ?_⟩
  · intro h
    unfold test_basic_connectivity
    rw [h]
  · intro h
    unfold test_data_transmission
    rw [h]
  · intro h
    unfold test_header_authenticity
    rw [h]
  · intro h
    unfold test_traffic_variation
    simp [h]
  · intro h
    unfold test_protocol
    simp [h, variationPhase, headerPhase, transmissionPhase, connectivityPhase, initResult]

/-- An environment in which only the header-authenticity HEAD request
raises; every other request succeeds. -/
def envHeadFail : Env :=
  { connResp := some (respOk, 2)
    transResp := some respOk
    headResp := none
    varResp := fun _ => some (respOk, 2) }

/-- C5 counterexample: the header probe's exception is converted to a
negative outcome, but no cause string is attached anywhere on the record,
contrary to the claim's "with an attached cause string". -/
theorem claim_C5_counterexample :
    envHeadFail.headResp = none
    ∧ (test_protocol envHeadFail profSample "t").headers_authentic = false
    ∧ (test_protocol envHeadFail profSample "t").error_message = none := by
  decide

/-- An environment in which every request raises. -/
def envAllFail : Env :=
  { connResp := none
    transResp := none
    headResp := none
    varResp := fun _ => none }

/-- Witness for C5 at a concrete environment where every request raises. -/
theorem claim_C5_witness :
    envAllFail.connResp = none
    ∧ envAllFail.transResp = none
    ∧ envAllFail.headResp = none
    ∧ (varResponses envAllFail).all Option.isSome = false
    ∧ test_basic_connectivity envAllFail profSample = (false, 0, 0)
    ∧ test_data_transmission envAllFail profSample = (false, false)
    ∧ test_header_authenticity envAllFail profSample = false
    ∧ test_traffic_variation envAllFail profSample = (false, false) :=
  ⟨rfl, rfl, rfl, by decide,
   (claim_C5_amended_fails_closed envAllFail profSample "t").1 rfl,
   (claim_C5_amended_fails_closed envAllFail profSample "t").2.1 rfl,
   (claim_C5_amended_fails_closed envAllFail profSample "t").2.2.1 rfl,
   (claim_C5_amended_fails_closed envAllFail profSample "t").2.2.2.1 (by decide)⟩

/-- C6, amended: a result carries an error message exactly when its
connectivity probe failed, and that message is the non-empty string
`Connection failed with HTTP <code>`; failures of later probes leave the
error message absent. -/
theorem claim_C6_amended_error_iff_unreachable (env : Env) (protocol : ProtocolConfig)
    (ts : String) :
    ((test_protocol env protocol ts).error_message ≠ none ↔
      (test_protocol env protocol ts).can_connect = false)
    ∧ ((test_basic_connectivity env protocol).1 = false →
        (test_protocol env protocol ts).error_message =
          some (connectionFailedMessage (test_basic_connectivity env protocol).2.1)
        ∧ connectionFailedMessage (test_basic_connectivity env protocol).2.1 ≠ "") := by
  constructor
  · rcases Bool.eq_false_or_eq_true (test_basic_connectivity env protocol).1 with h | h
    · unfold test_protocol
      simp [h, variationPhase, headerPhase, transmissionPhase, connectivityPhase, initResult]
    · unfold test_protocol
      simp [h, connectivityPhase, initResult]
  · intro h
    refine ⟨?_, connectionFailedMessage_ne_empty _⟩
    unfold test_protocol
    simp [h]

/-- An environment whose connectivity probe receives HTTP 500 and whose
remaining requests would all raise. -/
def envDown2 : Env :=
  { connResp := some ({ status := 500, contentLen := 0, headersText := "" }, 1)
    transResp := none
    headResp := none
    varResp := fun _ => none }

/-- Witness for C6's amended statement at a concrete unreachable
environment. -/
theorem claim_C6_witness :
    (test_basic_connectivity envDown2 profSample).1 = false
    ∧ (((test_protocol envDown2 profSample "t").error_message ≠ none) ↔
        ((test_protocol envDown2 profSample "t").can_connect = false))
    ∧ ((test_protocol envDown2 profSample "t").error_message =
        some (connectionFailedMessage (test_basic_connectivity envDown2 profSample).2.1)
       ∧ connectionFailedMessage (test_basic_connectivity envDown2 profSample).2.1 ≠ "") :=
  ⟨by decide,
   (claim_C6_amended_error_iff_unreachable envDown2 profSample "t").1,
   (claim_C6_amended_error_iff_unreachable envDown2 profSample "t").2 (by decide)⟩

/-- An environment in which only the transmission POST raises; connectivity,
header and variation requests succeed. -/
def envTransFail : Env :=
  { connResp := some (respOk, 2)
    transResp := none
    headResp := some respOk
    varResp := fun _ => some (respOk, 2) }

/-- C6 counterexample: after a successful connectivity probe a transmission
failure leaves a false flag on the record, yet the error-message field is
empty, contrary to the claim. -/
theorem claim_C6_counterexample :
    (test_protocol envTransFail profSample "t").can_send_data = false
    ∧ (test_protocol envTransFail profSample "t").can_connect = true
    ∧ (test_protocol envTransFail profSample "t").error_message = none := by
  decide

/-- Definition following the spec's words (§4.4), for comparison with the
source: "timing_variation = |distinct values in round_trip_ms sequence,
rounded to a configured precision| > 2", with the configured rounding
passed as `roundFn`.  The source computes distinctness on the raw times and
has no rounding configuration. -/
def timingVariationSpec (roundFn : ℚ → ℤ) (times : List ℚ) : Bool :=
  decide (2 < distinctCount (times.map roundFn))

/-- Round-trip times (milliseconds) with three distinct raw values but only
two distinct values after rounding to whole milliseconds. -/
def timesVar : List ℚ := [0, mkRat 1 4, mkRat 1 2, 0, 0]

/-- An environment whose five variation responses all succeed with equal
sizes and round-trip times `timesVar`. -/
def envVarTimes : Env :=
  { connResp := some (respOk, 1)
    transResp := some respOk
    headResp := some respOk
    varResp := fun i => some (respOk, timesVar.getD i.val 0) }

/-- C3 counterexample: the code reports timing variation on `timesVar`
(three distinct raw values) although the times rounded to the
whole-millisecond precision take only two distinct values, so the claimed
rule over rounded times does not describe the code. -/
theorem claim_C3_counterexample :
    observedTimes envVarTimes = timesVar
    ∧ (test_traffic_variation envVarTimes profSample).2 = true
    ∧ timingVariationSpec round timesVar = false := by
  refine ⟨by decide, by decide, ?_⟩
  have hmap : timesVar.map round = [0, 0, 1, 0, 0] := by
    norm_num [timesVar, Rat.mkRat_eq_div, round_eq]
  unfold timingVariationSpec
  rw [hmap]
  decide

/-- C3, amended: over a completed repetition sequence, size variation holds
iff the distinct response-length count exceeds 2, and timing variation
holds iff the distinct count of the raw round-trip times (no rounding is
applied) exceeds 2. -/
theorem claim_C3_amended_variation_rule (env : Env) (protocol : ProtocolConfig)
    (h : (varResponses env).all Option.isSome = true) :
    ((test_traffic_variation env protocol).1 = true ↔
      2 < distinctCount (observedSizes env))
    ∧ ((test_traffic_variation env protocol).2 = true ↔
      2 < distinctCount (observedTimes env)) := by
  unfold test_traffic_variation
  simp [h]

/-- Witness for C3's amended statement at a concrete environment. -/
theorem claim_C3_witness :
    (varResponses envVarTimes).all Option.isSome = true
    ∧ (((test_traffic_variation envVarTimes profSample).1 = true ↔
        2 < distinctCount (observedSizes envVarTimes))
       ∧ ((test_traffic_variation envVarTimes profSample).2 = true ↔
        2 < distinctCount (observedTimes envVarTimes))) :=
  ⟨by decide, claim_C3_amended_variation_rule envVarTimes profSample (by decide)⟩

/-- C9, amended: for a 9-profile run in which exactly 3 results are
unreachable and every reachable result has its send flag true, the report
metadata counts 6 working protocols and the results array keeps all 9
entries.  Without the added send-flag hypothesis the count can be lower
(see the counterexample). -/
theorem claim_C9_amended_working_count (server ts : String)
    (results : List ProtocolTestResult)
    (hlen : results.length = 9)
    (hunreach : results.countP (fun r => !r.can_connect) = 3)
    (hsend : ∀ r ∈ results, r.can_connect = true → r.can_send_data = true) :
    (mkReport server ts results).test_metadata.working_protocols = 6
    ∧ (mkReport server ts results).results.length = 9 := by
  constructor
  · have hcongr : results.countP (fun r => r.can_connect && r.can_send_data) =
        results.countP (fun r => r.can_connect) := by
      apply List.countP_congr
      intro r hr
      cases hcc : r.can_connect with
      | false => simp [hcc]
      | true => simp [hcc, hsend r hr hcc]
    have hsplit := List.length_eq_countP_add_countP
      (fun r : ProtocolTestResult => r.can_connect) results
    have hnot : results.countP (fun r : ProtocolTestResult =>
          decide ¬(r.can_connect = true)) =
        results.countP (fun r => !r.can_connect) := by
      apply List.countP_congr
      intro r hr
      cases hcc : r.can_connect <;> simp [hcc]
    rw [hnot, hunreach, hlen] at hsplit
    show workingProtocols results = 6
    unfold workingProtocols
    rw [hcongr]
    omega
  · simpa [mkReport] using hlen

/-- An environment in which every request of the battery succeeds. -/
def envUp : Env :=
  { connResp := some (respOk, 2)
    transResp := some respOk
    headResp := some respOk
    varResp := fun _ => some (respOk, 2) }

/-- Scenario environments: the first three profiles are unreachable, the
remaining six fully succeed. -/
def envsScenario : Nat → Env :=
  fun i => if i < 3 then envDown else envUp

/-- The results of a full run of the nine-profile catalog under
`envsScenario`. -/
def resultsScenario : List ProtocolTestResult :=
  runAllTests envsScenario (fun _ => "t") protocols

/-- Witness for C9's amended statement on a concrete nine-profile run with
exactly three unreachable profiles. -/
theorem claim_C9_witness :
    resultsScenario.length = 9
    ∧ resultsScenario.countP (fun r => !r.can_connect) = 3
    ∧ (∀ r ∈ resultsScenario, r.can_connect = true → r.can_send_data = true)
    ∧ ((mkReport "server" "t" resultsScenario).test_metadata.working_protocols = 6
       ∧ (mkReport "server" "t" resultsScenario).results.length = 9) :=
  ⟨by decide, by decide, by decide,
   claim_C9_amended_working_count "server" "t" resultsScenario
     (by decide) (by decide) (by decide)⟩

/-- Scenario environments with a flaw: the first three profiles are
unreachable, the fourth is reachable but its transmission POST raises, the
remaining five fully succeed. -/
def envsScenarioBad : Nat → Env :=
  fun i => if i < 3 then envDown else if i = 3 then envTransFail else envUp

/-- The results of a full run of the nine-profile catalog under
`envsScenarioBad`. -/
def resultsScenarioBad : List ProtocolTestResult :=
  runAllTests envsScenarioBad (fun _ => "t") protocols

/-- C9 counterexample: a nine-profile run with exactly three unreachable
profiles in which `working_protocols` is 5, not 6, because one reachable
profile cannot send. -/
theorem claim_C9_counterexample :
    resultsScenarioBad.length = 9
    ∧ resultsScenarioBad.countP (fun r => !r.can_connect) = 3
    ∧ (mkReport "server" "t" resultsScenarioBad).test_metadata.working_protocols = 5
    ∧ ¬(mkReport "server" "t" resultsScenarioBad).test_metadata.working_protocols = 6 := by
  decide

/-- A JSON value, the serialization target of `save_report` (`json.dump`):
null, booleans, numbers, strings, arrays, and objects with ordered fields. -/
inductive Json where
  | null
  | bool (b : Bool)
  | num (q : ℚ)
  | str (s : String)
  | arr (items : List Json)
  | obj (fields : List (String × Json))

/-- Serialization of an `Optional[str]` field: `None` becomes JSON null. -/
def encodeOptString : Option String → Json
  | none => Json.null
  | some s => Json.str s

/-- Serialization of one result record, with the field names and order of
the `ProtocolTestResult` dataclass (`asdict`). -/
def encodeResult (r : ProtocolTestResult) : Json :=
  Json.obj
    [("protocol_name", Json.str r.protocol_name),
     ("endpoint", Json.str r.endpoint),
     ("http_status", Json.num (r.http_status : ℚ)),
     ("response_time_ms", Json.num r.response_time_ms),
     ("can_connect", Json.bool r.can_connect),
     ("can_send_data", Json.bool r.can_send_data),
     ("can_receive_data", Json.bool r.can_receive_data),
     ("headers_authentic", Json.bool r.headers_authentic),
     ("packet_size_variation", Json.bool r.packet_size_variation),
     ("timing_variation", Json.bool r.timing_variation),
     ("error_message", encodeOptString r.error_message),
     ("test_timestamp", Json.str r.test_timestamp)]

/-- `save_report`: the serialized report document, with the field names of
§6 of the design — `test_metadata` (server, timestamp, total_protocols,
working_protocols) followed by the ordered results array. -/
def encodeReport (rep : Report) : Json :=
  Json.obj
    [("test_metadata", Json.obj
        [("server", Json.str rep.test_metadata.server),
         ("timestamp", Json.str rep.test_metadata.timestamp),
         ("total_protocols", Json.num (rep.test_metadata.total_protocols : ℚ)),
         ("working_protocols", Json.num (rep.test_metadata.working_protocols : ℚ))]),
     ("results", Json.arr (rep.results.map encodeResult))]

/-- Reads a non-negative integer back from a JSON number. -/
def decodeNatNum (q : ℚ) : Option Nat :=
  if q.den = 1 ∧ 0 ≤ q.num then some q.num.toNat else none

/-- Reads an `Optional[str]` field back from JSON null or a JSON string. -/
def decodeOptString : Json → Option (Option String)
  | Json.null => some none
  | Json.str s => some (some s)
  | _ => none

/-- Looks up a key in an ordered JSON object, first match wins. -/
def getField : List (String × Json) → String → Option Json
  | [], _ => none
  | (k, v) :: rest, key => if k = key then some v else getField rest key

/-- Reads a JSON string. -/
def jStr : Json → Option String
  | Json.str s => some s
  | _ => none

/-- Reads a JSON number. -/
def jNum : Json → Option ℚ
  | Json.num q => some q
  | _ => none

/-- Reads a JSON boolean. -/
def jBool : Json → Option Bool
  | Json.bool b => some b
  | _ => none

/-- Reads a JSON array. -/
def jArr : Json → Option (List Json)
  | Json.arr items => some items
  | _ => none

/-- Modelled from the spec: the repository serializes the report with
`json.dump` and contains no deserializer of its own, while §4.6 demands
"serialize → deserialize must yield a document equal to the original"; this
decoder reads a result record back from the fields `encodeResult` writes. -/
def decodeResult : Json → Option ProtocolTestResult
  | Json.obj fields => do
    let pn ← getField fields "protocol_name" >>= jStr
    let ep ← getField fields "endpoint" >>= jStr
    let hsq ← getField fields "http_status" >>= jNum
    let hs ← decodeNatNum hsq
    let rt ← getField fields "response_time_ms" >>= jNum
    let cc ← getField fields "can_connect" >>= jBool
    let cs ← getField fields "can_send_data" >>= jBool
    let cr ← getField fields "can_receive_data" >>= jBool
    let ha ← getField fields "headers_authentic" >>= jBool
    let sv ← getField fields "packet_size_variation" >>= jBool
    let tv ← getField fields "timing_variation" >>= jBool
    let emj ← getField fields "error_message"
    let em ← decodeOptString emj
    let ts ← getField fields "test_timestamp" >>= jStr
    some
      { protocol_name := pn
        endpoint := ep
        http_status := hs
        response_time_ms := rt
        can_connect := cc
        can_send_data := cs
        can_receive_data := cr
        headers_authentic := ha
        packet_size_variation := sv
        timing_variation := tv
        error_message := em
        test_timestamp := ts }
  | _ => none

/-- Modelled from the spec: element-wise decoding of the results array,
failing if any entry fails. -/
def decodeResults : List Json → Option (List ProtocolTestResult)
  | [] => some []
  | j :: rest =>
    match decodeResult j, decodeResults rest with
    | some r, some rs => some (r :: rs)
    | _, _ => none

/-- Modelled from the spec: decoder of the `test_metadata` object. -/
def decodeMetadata : Json → Option TestMetadata
  | Json.obj fields => do
    let server ← getField fields "server" >>= jStr
    let ts ← getField fields "timestamp" >>= jStr
    let totq ← getField fields "total_protocols" >>= jNum
    let tot ← decodeNatNum totq
    let wq ← getField fields "working_protocols" >>= jNum
    let w ← decodeNatNum wq
    some
      { server := server
        timestamp := ts
        total_protocols := tot
        working_protocols := w }
  | _ => none

/-- Modelled from the spec: decoder of the full report document of the
shape `encodeReport` writes. -/
def decodeReport : Json → Option Report
  | Json.obj fields => do
    let mj ← getField fields "test_metadata"
    let m ← decodeMetadata mj
    let rj ← getField fields "results"
    let items ← jArr rj
    let rs ← decodeResults items
    some { test_metadata := m, results := rs }
  | _ => none

lemma decodeNatNum_natCast (n : Nat) : decodeNatNum (n : ℚ) = some n := by
  unfold decodeNatNum
  rw [if_pos ⟨Rat.den_natCast n, by simp [Rat.num_natCast]⟩]
  simp [Rat.num_natCast]

set_option maxHeartbeats 1000000 in
lemma decodeResult_encodeResult (r : ProtocolTestResult) :
    decodeResult (encodeResult r) = some r := by
  cases r with
  | mk pn ep hs rt cc cs cr ha sv tv em ts =>
    cases em <;>
      simp [encodeResult, encodeOptString, decodeResult, getField,
        jStr, jNum, jBool, decodeOptString, decodeNatNum_natCast]

lemma decodeResults_map_encodeResult (l : List ProtocolTestResult) :
    decodeResults (l.map encodeResult) = some l := by
  induction l with
  | nil => rfl
  | cons r rest ih => simp [decodeResults, decodeResult_encodeResult r, ih]

/-- C8: serializing a report document and deserializing the serialized form
yields the original document, including the metadata and the full ordered
results list. -/
theorem claim_C8_report_round_trip (rep : Report) :
    decodeReport (encodeReport rep) = some rep := by
  cases rep with
  | mk m results =>
    cases m with
    | mk server ts tot working =>
      simp [encodeReport, decodeReport, decodeMetadata, getField, jStr, jNum,
        jArr, decodeNatNum_natCast, decodeResults_map_encodeResult]
